import Mathlib

/-!
Verification of the Techstore catalog service: a shallow embedding of the
product data model (SQL schema in the migration file), the dashboard
aggregation, the recommendations query, the client-side filter, and the
three HTTP handlers (POST /api/products, GET and PUT /api/products/[slug]).
Timestamps are modelled as natural numbers, the numeric column `price` as a
rational number and the integer column `inventory` as an integer, and the
opaque uuid `id` as a natural number.
-/

namespace Techstore

/-- Row of the `products` table, as created by the migration:
`id uuid, name text, slug text (unique), description text, price numeric,
category text, inventory integer, last_updated timestamptz, created_at
timestamptz`. -/
structure Product where
  id : Nat
  name : String
  slug : String
  descr : String
  price : Rat
  category : String
  inventory : Int
  last_updated : Nat
  created_at : Nat
deriving DecidableEq, Repr

/-! ## Dashboard aggregation (getDashboardData, inventory dashboard page)

The page fetches all products and then folds over the fetched list:
`lowStockProducts = products.filter (p => p.inventory < 5)`,
`totalValue = products.reduce ((sum, p) => sum + Number(p.price) * p.inventory, 0)`,
`categories = products.reduce ((acc, p) => acc[p.category] = (acc[p.category] or 0) + 1, acc)`.
A JavaScript object used as a string-keyed counter is modelled as an
association list with property get and property set. -/

/-- Property read `acc[k]` on a record modelled as an association list:
the value bound to the first matching key, if any. -/
def recGet : List (String × Nat) → String → Option Nat
  | [], _ => none
  | e :: rest, k => if e.1 = k then some e.2 else recGet rest k

/-- Property write `acc[k] = v`: overwrite the existing binding in place, or
append a new binding at the end. -/
def recSet : List (String × Nat) → String → Nat → List (String × Nat)
  | [], k, v => [(k, v)]
  | e :: rest, k, v => if e.1 = k then (k, v) :: rest else e :: recSet rest k v

/-- The `categories` fold of `getDashboardData`: for each product, bump the
counter stored under its category name, starting from the empty object. -/
def categoriesOf (products : List Product) : List (String × Nat) :=
  products.foldl
    (fun acc p => recSet acc p.category ((recGet acc p.category).getD 0 + 1)) []

/-- Derived dashboard view returned by `getDashboardData` on a successful
fetch. -/
structure DashboardData where
  products : List Product
  totalProducts : Nat
  lowStockProducts : List Product
  totalValue : Rat
  categories : List (String × Nat)
deriving DecidableEq, Repr

/-- The pure aggregation performed by `getDashboardData` over the fetched
product list (the spec calls it `aggregate`). -/
def aggregate (products : List Product) : DashboardData where
  products := products
  totalProducts := products.length
  lowStockProducts := products.filter (fun p => decide (p.inventory < 5))
  totalValue := products.foldl (fun sum p => sum + p.price * (p.inventory : Rat)) 0
  categories := categoriesOf products

theorem recGet_recSet (acc : List (String × Nat)) (k : String) (v : Nat)
    (c : String) :
    recGet (recSet acc k v) c = if c = k then some v else recGet acc c := by
  induction acc with
  | nil =>
    by_cases hck : c = k
    · simp [recSet, recGet, hck]
    · simp [recSet, recGet, hck, Ne.symm hck]
  | cons e rest ih =>
    simp only [recSet]
    by_cases hek : e.1 = k
    · rw [if_pos hek]
      by_cases hck : c = k
      · simp [recGet, hek, hck]
      · have hkc : ¬ k = c := fun h => hck h.symm
        simp [recGet, hek, hkc, hck]
    · rw [if_neg hek]
      by_cases hec : e.1 = c
      · have hck : ¬ c = k := fun h => hek (by rw [hec, h])
        simp [recGet, hec, hck]
      · simp [recGet, hec, ih]

theorem categoriesOf_loop (ps : List Product) :
    ∀ (acc : List (String × Nat)) (c : String),
      (recGet (ps.foldl
          (fun acc p =>
            recSet acc p.category ((recGet acc p.category).getD 0 + 1)) acc) c).getD 0
        = (recGet acc c).getD 0
          + (ps.filter (fun p => decide (p.category = c))).length := by
  induction ps with
  | nil => intro acc c; simp
  | cons p ps ih =>
    intro acc c
    rw [List.foldl_cons, ih]
    by_cases hc : p.category = c
    · subst hc
      simp [recGet_recSet, List.filter_cons]
      omega
    · have hc' : ¬ c = p.category := fun h => hc h.symm
      simp [recGet_recSet, hc', hc, List.filter_cons]

theorem totalValue_foldl (ps : List Product) :
    ∀ a : Rat,
      ps.foldl (fun sum p => sum + p.price * (p.inventory : Rat)) a
        = a + (ps.map (fun p => p.price * (p.inventory : Rat))).sum := by
  induction ps with
  | nil => intro a; simp
  | cons p ps ih => intro a; simp [ih, add_assoc]

/-- C1: for every list of products, `aggregate` returns the total count equal
to the length of the list, the low-stock subset exactly of products with
inventory below 5, total value Σ price × inventory, and a category map
sending each category name to the number of products of that category; on
the two-product example with prices 10 and 5 and inventories 2 and 1 the
total value is 25, and on the empty list the value is 0 and the category map
is empty. -/
theorem aggregate_correct (ps : List Product) :
    (aggregate ps).totalProducts = ps.length
    ∧ (∀ p : Product,
        p ∈ (aggregate ps).lowStockProducts ↔ p ∈ ps ∧ p.inventory < 5)
    ∧ (aggregate ps).totalValue
        = (ps.map (fun p => p.price * (p.inventory : Rat))).sum
    ∧ (∀ c : String,
        ((recGet (aggregate ps).categories c).getD 0
          = (ps.filter (fun p => decide (p.category = c))).length))
    ∧ (aggregate
        [⟨1, "a", "a", "", 10, "general", 2, 0, 0⟩,
         ⟨2, "b", "b", "", 5, "general", 1, 0, 0⟩]).totalValue = 25
    ∧ (aggregate []).totalValue = 0
    ∧ (aggregate []).categories = [] := by
  refine ⟨rfl, ?_, ?_, ?_, ?_, rfl, rfl⟩
  · intro p
    simp [aggregate]
  · simpa using totalValue_foldl ps 0
  · intro c
    simpa [aggregate, categoriesOf, recGet] using categoriesOf_loop ps [] c
  · simp [aggregate]
    norm_num

/-! ## Recommendations query (getRecommendedProducts)

The page issues `select.gte(inventory, 10).order(price, descending).limit(6)`
against the store and returns the empty list when the store reports an
error. The store is modelled as the list of rows in insertion order; `order`
is a stable sort, `limit` a prefix truncation. -/

/-- Descending price comparison used by `order(price, ascending: false)`. -/
def priceDesc (a b : Product) : Bool :=
  decide (b.price ≤ a.price)

/-- The recommendations fetch: rows with inventory at least 10, stably
sorted by price descending, capped at 6; the empty list on a store error. -/
def getRecommendedProducts (store : List Product) (err : Bool) : List Product :=
  if err then []
  else
    (((store.filter (fun p => decide ((10 : Int) ≤ p.inventory))).mergeSort
      priceDesc).take 6)

/-- C2: the recommended set has at most 6 products, every product in it has
inventory at least 10, and it is sorted by price in descending order. -/
theorem getRecommendedProducts_correct (store : List Product) (err : Bool) :
    (getRecommendedProducts store err).length ≤ 6
    ∧ (∀ p : Product, p ∈ getRecommendedProducts store err →
        (10 : Int) ≤ p.inventory)
    ∧ (getRecommendedProducts store err).Pairwise
        (fun a b => b.price ≤ a.price) := by
  cases err with
  | true => simp [getRecommendedProducts]
  | false =>
    have hred : getRecommendedProducts store false
        = (((store.filter
            (fun p => decide ((10 : Int) ≤ p.inventory))).mergeSort
          priceDesc).take 6) := rfl
    refine ⟨?_, ?_, ?_⟩
    · rw [hred]
      simp
    · intro p hp
      rw [hred] at hp
      have hp' := List.take_subset 6 _ hp
      rw [List.mem_mergeSort] at hp'
      have := List.of_mem_filter hp'
      simpa using this
    · have hsorted :
        (((store.filter
            (fun p => decide ((10 : Int) ≤ p.inventory))).mergeSort
          priceDesc)).Pairwise (fun a b => priceDesc a b = true) := by
        apply List.sorted_mergeSort
        · intro a b c hab hbc
          simp only [priceDesc, decide_eq_true_eq] at *
          exact le_trans hbc hab
        · intro a b
          simp only [priceDesc]
          rcases le_total b.price a.price with h | h
          · simp [h]
          · simp [h]
      have htake := hsorted.sublist (List.take_sublist 6 _)
      rw [hred]
      exact htake.imp (fun h => by simpa [priceDesc] using h)

/-! ## Client-side filter (ProductList component)

`products.filter (p => p.name.toLowerCase().includes(term.toLowerCase())
  and (selected === "all" or p.category === selected))`.
JavaScript substring containment is modelled as list-infix over the
characters of the strings. -/

/-- JavaScript `s.toLowerCase()`: every character mapped to lower case. -/
def strToLower (s : String) : String :=
  ⟨s.data.map Char.toLower⟩

/-- JavaScript `s.includes(pat)`: `pat` occurs contiguously inside `s`. -/
def strIncludes (s pat : String) : Bool :=
  decide (pat.toList <:+: s.toList)

/-- The client-side filter of the product list page. -/
def filteredProducts (products : List Product)
    (searchTerm selectedCategory : String) : List Product :=
  products.filter (fun p =>
    strIncludes (strToLower p.name) (strToLower searchTerm)
      && (decide (selectedCategory = "all")
          || decide (p.category = selectedCategory)))

/-- The ten sample rows inserted by the migration (ids and timestamps are
server-generated; they are numbered 1..10 here with zero timestamps). -/
def sampleProducts : List Product :=
  [⟨1, "Laptop Pro 15\"", "laptop-pro-15",
      "High-performance laptop with 16GB RAM and 512GB SSD",
      (1299.99 : Rat), "Electronics", 12, 0, 0⟩,
   ⟨2, "Wireless Mouse", "wireless-mouse",
      "Ergonomic wireless mouse with precision tracking",
      (29.99 : Rat), "Electronics", 45, 0, 0⟩,
   ⟨3, "Mechanical Keyboard", "mechanical-keyboard",
      "RGB mechanical keyboard with blue switches",
      (89.99 : Rat), "Electronics", 23, 0, 0⟩,
   ⟨4, "USB-C Hub", "usb-c-hub",
      "7-in-1 USB-C hub with HDMI and USB 3.0 ports",
      (49.99 : Rat), "Accessories", 8, 0, 0⟩,
   ⟨5, "Laptop Stand", "laptop-stand",
      "Adjustable aluminum laptop stand",
      (39.99 : Rat), "Accessories", 3, 0, 0⟩,
   ⟨6, "Noise Cancelling Headphones", "noise-cancelling-headphones",
      "Premium wireless headphones with active noise cancellation",
      (249.99 : Rat), "Audio", 18, 0, 0⟩,
   ⟨7, "Portable SSD 1TB", "portable-ssd-1tb",
      "Fast external SSD with USB-C connectivity",
      (129.99 : Rat), "Storage", 2, 0, 0⟩,
   ⟨8, "Webcam HD", "webcam-hd",
      "1080p HD webcam with auto-focus",
      (79.99 : Rat), "Electronics", 15, 0, 0⟩,
   ⟨9, "Phone Stand", "phone-stand",
      "Adjustable phone stand for desk",
      (19.99 : Rat), "Accessories", 34, 0, 0⟩,
   ⟨10, "Monitor 27\"", "monitor-27",
      "27-inch 4K monitor with IPS panel",
      (399.99 : Rat), "Electronics", 7, 0, 0⟩]

/-- C9: a product survives the client-side filter exactly when its
lower-cased name contains the lower-cased search term as a substring and its
category equals the selector (every category passing when the selector is
"all"); on the sample catalog with search "mouse" and category "all" the
result is exactly the Wireless Mouse row. -/
theorem filteredProducts_correct (products : List Product)
    (searchTerm selectedCategory : String) :
    (∀ p : Product,
      p ∈ filteredProducts products searchTerm selectedCategory ↔
        p ∈ products
          ∧ (strToLower searchTerm).toList <:+: (strToLower p.name).toList
          ∧ (selectedCategory = "all" ∨ p.category = selectedCategory))
    ∧ (filteredProducts sampleProducts "mouse" "all").map Product.name
        = ["Wireless Mouse"]
    ∧ (filteredProducts sampleProducts "mouse" "all").map Product.slug
        = ["wireless-mouse"] := by
  refine ⟨?_, ?_, ?_⟩
  · intro p
    simp [filteredProducts, strIncludes, and_assoc]
  · decide
  · decide

/-! ## HTTP handlers

POST /api/products and PUT /api/products/[slug] first compare the
`x-admin-key` header against the configured secret, then inspect the JSON
body. The header is a string or absent, the secret is a string or unset;
JavaScript strict inequality `adminKey !== ADMIN_KEY` holds unless both are
strings and equal. Create-body fields are JavaScript values (a missing key
reads as undefined); the create validation tests text fields for falsiness
(`!name`) and numeric fields only against undefined. The store is the list
of rows; a store round-trip may also fail for external reasons, modelled by
an error flag. -/

/-- A JavaScript value, as far as the handlers inspect one. -/
inductive JsVal where
  | undef
  | null
  | str (s : String)
  | num (q : Rat)
  | boolean (b : Bool)
deriving DecidableEq, Repr

/-- JavaScript falsiness: undefined, null, the empty string, zero and false
are falsy. -/
def JsVal.falsy : JsVal → Bool
  | .undef => true
  | .null => true
  | .str s => decide (s = "")
  | .num q => decide (q = 0)
  | .boolean b => !b

/-- Value stored for a text column when the body field is a string (the
handlers forward body values to the store untyped; a well-typed body always
hits the first case). -/
def JsVal.asString : JsVal → String
  | .str s => s
  | _ => ""

/-- Value stored for the numeric column when the body field is a number. -/
def JsVal.asRat : JsVal → Rat
  | .num q => q
  | _ => 0

/-- Value stored for the integer column when the body field is a number. -/
def JsVal.asInt : JsVal → Int
  | .num q => q.floor
  | _ => 0

/-- The admin gate of both mutation handlers: `adminKey !== ADMIN_KEY` fails
the request unless header and secret are both present and equal. -/
def authorized (header secret : Option String) : Bool :=
  match header, secret with
  | some h, some s => decide (h = s)
  | _, _ => false

/-- JSON body of POST /api/products; each of the six destructured fields is
a JavaScript value, `undef` when the key is absent. -/
structure CreateBody where
  name : JsVal
  slug : JsVal
  descr : JsVal
  price : JsVal
  category : JsVal
  inventory : JsVal
deriving DecidableEq, Repr

/-- The create validation:
`!name or !slug or !description or price === undefined or !category or
inventory === undefined`. -/
def missingCreateField (b : CreateBody) : Bool :=
  b.name.falsy || b.slug.falsy || b.descr.falsy
    || decide (b.price = JsVal.undef) || b.category.falsy
    || decide (b.inventory = JsVal.undef)

/-- Row inserted by a successful create: the six body fields plus
`last_updated`, with `id` and `created_at` server-generated. -/
def rowOfBody (b : CreateBody) (freshId now : Nat) : Product where
  id := freshId
  name := b.name.asString
  slug := b.slug.asString
  descr := b.descr.asString
  price := b.price.asRat
  category := b.category.asString
  inventory := b.inventory.asInt
  last_updated := now
  created_at := now

/-- POST /api/products: 401 on a bad admin key, then 400 on a missing
required field, then the insert, which fails with a store error (500) on an
external failure or a duplicate slug and otherwise appends the row (201).
Returns the status together with the resulting store. -/
def postProduct (header secret : Option String) (b : CreateBody)
    (store : List Product) (freshId now : Nat) (dbErr : Bool) :
    Nat × List Product :=
  if !authorized header secret then (401, store)
  else if missingCreateField b then (400, store)
  else if dbErr || store.any (fun p => decide (p.slug = b.slug.asString)) then
    (500, store)
  else (201, store ++ [rowOfBody b freshId now])

/-- JSON body of PUT /api/products/[slug]; `none` models an absent key
(undefined). The body may also carry a `slug` key, which the handler never
destructures. -/
structure UpdateBody where
  name : Option String
  slug : Option String
  descr : Option String
  price : Option Rat
  category : Option String
  inventory : Option Int
deriving DecidableEq, Repr

/-- The update payload applied to a row: `last_updated` is always set to the
current time, and each of name, description, price, category and inventory
is overwritten exactly when the body supplies it. -/
def applyUpdate (b : UpdateBody) (now : Nat) (p : Product) : Product where
  id := p.id
  name := b.name.getD p.name
  slug := p.slug
  descr := b.descr.getD p.descr
  price := b.price.getD p.price
  category := b.category.getD p.category
  inventory := b.inventory.getD p.inventory
  last_updated := now
  created_at := p.created_at

/-- PUT /api/products/[slug]: 401 on a bad admin key; otherwise the store
updates every row whose slug matches, and the trailing `.single()` demands
exactly one returned row, so the handler answers 200 with the updated store
when one row matched and 500 otherwise (no row matched, or an external store
failure). -/
def putProduct (header secret : Option String) (slug : String)
    (b : UpdateBody) (now : Nat) (store : List Product) (dbErr : Bool) :
    Nat × List Product :=
  if !authorized header secret then (401, store)
  else if dbErr then (500, store)
  else
    let updated := store.map
      (fun p => if p.slug = slug then applyUpdate b now p else p)
    if store.countP (fun p => decide (p.slug = slug)) = 1 then (200, updated)
    else (500, updated)

/-- GET /api/products/[slug]: 500 on a store error, else the first row with
a matching slug (the slug column is unique) or 404 when there is none. -/
def getProduct (slug : String) (store : List Product) (dbErr : Bool) :
    Nat × Option Product :=
  if dbErr then (500, none)
  else
    match store.find? (fun p => decide (p.slug = slug)) with
    | none => (404, none)
    | some p => (200, some p)

/-- A concrete create body with all six fields present and truthy. -/
def validCreateBody : CreateBody :=
  ⟨JsVal.str "n", JsVal.str "s", JsVal.str "d", JsVal.num 1,
   JsVal.str "c", JsVal.num 1⟩

/-- A concrete create body whose name is present but the empty string. -/
def emptyNameBody : CreateBody :=
  ⟨JsVal.str "", JsVal.str "s", JsVal.str "d", JsVal.num 1,
   JsVal.str "c", JsVal.num 1⟩

/-- The update body that supplies no fields at all. -/
def noFieldUpdate : UpdateBody :=
  ⟨none, none, none, none, none, none⟩

/-- A concrete update body that also carries a slug key. -/
def sampleUpdate : UpdateBody :=
  ⟨some "N", some "other-slug", none, some 7, none, some 9⟩

/-- A concrete stored row. -/
def sampleRow : Product :=
  ⟨1, "a", "s", "d", 2, "c", 3, 0, 0⟩

/-- C3: an update overwrites exactly the supplied fields, every omitted
field (and id, slug, created_at) keeps its prior value, and `last_updated`
is set to the current time on every update, including the update that
supplies no fields. -/
theorem applyUpdate_frame (b : UpdateBody) (now : Nat) (p : Product) :
    (applyUpdate b now p).last_updated = now
    ∧ (∀ v, b.name = some v → (applyUpdate b now p).name = v)
    ∧ (b.name = none → (applyUpdate b now p).name = p.name)
    ∧ (∀ v, b.descr = some v → (applyUpdate b now p).descr = v)
    ∧ (b.descr = none → (applyUpdate b now p).descr = p.descr)
    ∧ (∀ v, b.price = some v → (applyUpdate b now p).price = v)
    ∧ (b.price = none → (applyUpdate b now p).price = p.price)
    ∧ (∀ v, b.category = some v → (applyUpdate b now p).category = v)
    ∧ (b.category = none → (applyUpdate b now p).category = p.category)
    ∧ (∀ v, b.inventory = some v → (applyUpdate b now p).inventory = v)
    ∧ (b.inventory = none → (applyUpdate b now p).inventory = p.inventory)
    ∧ (applyUpdate b now p).id = p.id
    ∧ (applyUpdate b now p).slug = p.slug
    ∧ (applyUpdate b now p).created_at = p.created_at
    ∧ applyUpdate noFieldUpdate now p
        = { p with last_updated := now } := by
  refine ⟨rfl, ?_, ?_, ?_, ?_, ?_, ?_, ?_, ?_, ?_, ?_, rfl, rfl, rfl, rfl⟩
  · intro v h
    simp [applyUpdate, h]
  · intro h
    simp [applyUpdate, h]
  · intro v h
    simp [applyUpdate, h]
  · intro h
    simp [applyUpdate, h]
  · intro v h
    simp [applyUpdate, h]
  · intro h
    simp [applyUpdate, h]
  · intro v h
    simp [applyUpdate, h]
  · intro h
    simp [applyUpdate, h]
  · intro v h
    simp [applyUpdate, h]
  · intro h
    simp [applyUpdate, h]

/-- C3 witness at a concrete body, time and row. -/
theorem applyUpdate_frame_witness :
    (applyUpdate sampleUpdate 5 sampleRow).name = "N"
    ∧ (applyUpdate sampleUpdate 5 sampleRow).descr = sampleRow.descr
    ∧ (applyUpdate sampleUpdate 5 sampleRow).last_updated = 5 := by
  have h := applyUpdate_frame sampleUpdate 5 sampleRow
  exact ⟨h.2.1 "N" rfl, h.2.2.2.2.1 rfl, h.1⟩

/-- C4: when the admin key header does not match the configured secret,
both mutation endpoints answer 401 and leave the store unchanged, for every
body, store state, and store-error condition. -/
theorem mutation_unauthorized (header secret : Option String)
    (hauth : authorized header secret = false) :
    (∀ (b : CreateBody) (store : List Product) (freshId now : Nat)
      (dbErr : Bool),
      postProduct header secret b store freshId now dbErr = (401, store))
    ∧ (∀ (slug : String) (b : UpdateBody) (now : Nat) (store : List Product)
        (dbErr : Bool),
        putProduct header secret slug b now store dbErr = (401, store)) := by
  constructor <;> intros <;> simp [postProduct, putProduct, hauth]

/-- C4 witness: a wrong key is rejected with 401 on an empty store even for
an invalid body. -/
theorem mutation_unauthorized_witness :
    authorized (some "wrong") (some "secret") = false
    ∧ postProduct (some "wrong") (some "secret") emptyNameBody [] 1 0 false
        = (401, [])
    ∧ putProduct (some "wrong") (some "secret") "s" sampleUpdate 5 [] false
        = (401, []) := by
  have h := mutation_unauthorized (some "wrong") (some "secret") (by decide)
  exact ⟨by decide, h.1 emptyNameBody [] 1 0 false,
    h.2 "s" sampleUpdate 5 [] false⟩

/-- C5 counterexample: a body with every one of the six fields present but
with name equal to the empty string is rejected with 400, so 400 does not
happen only when a field is missing. -/
theorem create_validation_counterexample :
    (emptyNameBody.name ≠ JsVal.undef ∧ emptyNameBody.slug ≠ JsVal.undef
      ∧ emptyNameBody.descr ≠ JsVal.undef
      ∧ emptyNameBody.price ≠ JsVal.undef
      ∧ emptyNameBody.category ≠ JsVal.undef
      ∧ emptyNameBody.inventory ≠ JsVal.undef)
    ∧ authorized (some "k") (some "k") = true
    ∧ (postProduct (some "k") (some "k") emptyNameBody [] 1 0 false).1
        = 400 := by
  decide

/-- C5 (amended): an authorized create is rejected with 400 exactly when a
text field (name, slug, description, category) is falsy - absent, null or
the empty string - or a numeric field (price, inventory) is undefined; on a
400 the store is unchanged, and when validation passes the handler attempts
the insert, answering 201 or a 500 store error. -/
theorem create_validation_amended (header secret : Option String)
    (b : CreateBody) (store : List Product) (freshId now : Nat) (dbErr : Bool)
    (hauth : authorized header secret = true) :
    ((postProduct header secret b store freshId now dbErr).1 = 400
      ↔ (b.name.falsy = true ∨ b.slug.falsy = true ∨ b.descr.falsy = true
          ∨ b.price = JsVal.undef ∨ b.category.falsy = true
          ∨ b.inventory = JsVal.undef))
    ∧ ((postProduct header secret b store freshId now dbErr).1 = 400
        → (postProduct header secret b store freshId now dbErr).2 = store)
    ∧ (missingCreateField b = false
        → (postProduct header secret b store freshId now dbErr).1 = 201
          ∨ (postProduct header secret b store freshId now dbErr).1 = 500) := by
  by_cases hm : missingCreateField b = true
  · have hform : b.name.falsy = true ∨ b.slug.falsy = true
        ∨ b.descr.falsy = true ∨ b.price = JsVal.undef
        ∨ b.category.falsy = true ∨ b.inventory = JsVal.undef := by
      have h := hm
      simp only [missingCreateField, Bool.or_eq_true, decide_eq_true_eq] at h
      tauto
    refine ⟨?_, ?_, ?_⟩
    · constructor
      · intro _
        exact hform
      · intro _
        simp [postProduct, hauth, hm]
    · intro _
      simp [postProduct, hauth, hm]
    · intro hf
      rw [hf] at hm
      exact absurd hm (by simp)
  · have hform : ¬ (b.name.falsy = true ∨ b.slug.falsy = true
        ∨ b.descr.falsy = true ∨ b.price = JsVal.undef
        ∨ b.category.falsy = true ∨ b.inventory = JsVal.undef) := by
      intro hdisj
      apply hm
      simp only [missingCreateField, Bool.or_eq_true, decide_eq_true_eq]
      tauto
    by_cases hd : (dbErr
        || store.any (fun p => decide (p.slug = b.slug.asString))) = true
    · refine ⟨?_, ?_, ?_⟩
      · constructor
        · intro habs
          simp [postProduct, hauth, hm, hd] at habs
        · intro hdisj
          exact absurd hdisj hform
      · intro habs
        simp [postProduct, hauth, hm, hd] at habs
      · intro _
        right
        simp [postProduct, hauth, hm, hd]
    · refine ⟨?_, ?_, ?_⟩
      · constructor
        · intro habs
          simp [postProduct, hauth, hm, hd] at habs
        · intro hdisj
          exact absurd hdisj hform
      · intro habs
        simp [postProduct, hauth, hm, hd] at habs
      · intro _
        left
        simp [postProduct, hauth, hm, hd]

/-- C5 witness: a valid authorized create on the empty store is not a 400
and reaches the insert. -/
theorem create_validation_amended_witness :
    (postProduct (some "k") (some "k") validCreateBody [] 1 0 false).1 = 201
    ∨ (postProduct (some "k") (some "k") validCreateBody [] 1 0 false).1
        = 500 := by
  have h := create_validation_amended (some "k") (some "k") validCreateBody
    [] 1 0 false (by decide)
  exact h.2.2 (by decide)

/-- C6: reading a slug that matches no row answers 404 with no row, which
is not the store-error status 500; the store-error status arises only from a
failing store round-trip. -/
theorem getProduct_notFound (store : List Product) (slug : String)
    (hnone : ∀ p ∈ store, p.slug ≠ slug) :
    (getProduct slug store false).1 = 404
    ∧ (getProduct slug store false).1 ≠ 500
    ∧ (getProduct slug store false).2 = none
    ∧ (∀ st : List Product, (getProduct slug st true).1 = 500) := by
  have hfind : store.find? (fun p => decide (p.slug = slug)) = none := by
    rw [List.find?_eq_none]
    intro p hp
    simp [hnone p hp]
  refine ⟨?_, ?_, ?_, ?_⟩
  · simp [getProduct, hfind]
  · simp [getProduct, hfind]
  · simp [getProduct, hfind]
  · intro st
    simp [getProduct]

/-- C6 witness: looking up a slug on a store that does not hold it. -/
theorem getProduct_notFound_witness :
    (getProduct "missing" [sampleRow] false).1 = 404
    ∧ (getProduct "missing" [sampleRow] false).1 ≠ 500 := by
  have h := getProduct_notFound [sampleRow] "missing" (by decide)
  exact ⟨h.1, h.2.1⟩

/-- C7: an authorized update whose slug matches no row answers 500 with the
store unchanged, the same status as an external store failure, and the
update handler never answers 404 on any input. -/
theorem putProduct_notFound (store : List Product) (slug : String)
    (hnone : ∀ p ∈ store, p.slug ≠ slug)
    (header secret : Option String) (hauth : authorized header secret = true)
    (b : UpdateBody) (now : Nat) :
    putProduct header secret slug b now store false = (500, store)
    ∧ (putProduct header secret slug b now store true).1 = 500
    ∧ (∀ (h2 s2 : Option String) (sl2 : String) (b2 : UpdateBody) (n2 : Nat)
        (st2 : List Product) (e2 : Bool),
        (putProduct h2 s2 sl2 b2 n2 st2 e2).1 ≠ 404) := by
  refine ⟨?_, ?_, ?_⟩
  · have hcount : store.countP (fun p => decide (p.slug = slug)) = 0 := by
      rw [List.countP_eq_zero]
      intro p hp
      simp [hnone p hp]
    have hmap : store.map
        (fun p => if p.slug = slug then applyUpdate b now p else p)
        = store.map id := by
      apply List.map_congr_left
      intro p hp
      simp [hnone p hp]
    simp [putProduct, hauth, hcount, hmap]
  · simp [putProduct, hauth]
  · intro h2 s2 sl2 b2 n2 st2 e2
    simp only [putProduct]
    split_ifs <;> simp

/-- C7 witness: updating a missing slug on a one-row store. -/
theorem putProduct_notFound_witness :
    putProduct (some "k") (some "k") "missing" sampleUpdate 5 [sampleRow]
      false = (500, [sampleRow]) := by
  have h := putProduct_notFound [sampleRow] "missing" (by decide)
    (some "k") (some "k") (by decide) sampleUpdate 5
  exact h.1

/-- C8: the update handler never changes any stored slug - the slugs of the
resulting store equal the slugs of the prior store for every request,
including a body that carries a slug field - and the update payload keeps
the row's slug. -/
theorem slug_immutable (header secret : Option String) (slug : String)
    (b : UpdateBody) (now : Nat) (store : List Product) (dbErr : Bool) :
    ((putProduct header secret slug b now store dbErr).2).map Product.slug
      = store.map Product.slug
    ∧ (∀ p : Product, (applyUpdate b now p).slug = p.slug)
    ∧ (∀ (p : Product) (s : String),
        (applyUpdate { b with slug := some s } now p).slug = p.slug) := by
  refine ⟨?_, fun p => rfl, fun p s => rfl⟩
  have hm : ∀ p : Product,
      (if p.slug = slug then applyUpdate b now p else p).slug = p.slug := by
    intro p
    by_cases h : p.slug = slug <;> simp [h, applyUpdate]
  simp only [putProduct]
  split_ifs <;> simp [List.map_map, Function.comp, hm]

/-- C10: create validation is asymmetric - a text field equal to the empty
string is rejected as missing (400), while price and inventory are measured
only against undefined, so zero and null numeric values pass validation. -/
theorem create_validation_asymmetry (b : CreateBody) :
    ((b.name = JsVal.str "" ∨ b.slug = JsVal.str ""
        ∨ b.descr = JsVal.str "" ∨ b.category = JsVal.str "")
      → missingCreateField b = true)
    ∧ (b.name.falsy = false → b.slug.falsy = false → b.descr.falsy = false
        → b.category.falsy = false → b.price ≠ JsVal.undef
        → b.inventory ≠ JsVal.undef → missingCreateField b = false)
    ∧ (∀ (header secret : Option String) (store : List Product)
        (fid now : Nat) (e : Bool),
        authorized header secret = true → missingCreateField b = true
        → (postProduct header secret b store fid now e).1 = 400)
    ∧ missingCreateField ⟨JsVal.str "n", JsVal.str "s", JsVal.str "d",
        JsVal.num 0, JsVal.str "c", JsVal.num 0⟩ = false
    ∧ missingCreateField ⟨JsVal.str "n", JsVal.str "s", JsVal.str "d",
        JsVal.null, JsVal.str "c", JsVal.null⟩ = false
    ∧ (postProduct (some "k") (some "k") emptyNameBody [] 1 0 false).1
        = 400 := by
  refine ⟨?_, ?_, ?_, by decide, by decide, by decide⟩
  · intro h
    rcases h with h | h | h | h <;> simp [missingCreateField, h, JsVal.falsy]
  · intro hn hs hd hc hp hi
    simp [missingCreateField, hn, hs, hd, hc, hp, hi]
  · intro header secret store fid now e hauth hm
    simp [postProduct, hauth, hm]

/-- C10 witness: the empty-string name is flagged missing, and the
zero-valued numeric body passes. -/
theorem create_validation_asymmetry_witness :
    missingCreateField emptyNameBody = true := by
  have h := create_validation_asymmetry emptyNameBody
  exact h.1 (Or.inl rfl)

end Techstore
